import Mathlib

/-!
Shallow embedding of the SBCL Genesis dashboard (src/app.py) and proofs of
the specification's claims about it.

Parameter values and profile constants are modelled as exact rationals;
the wave generator, which samples real sinusoids, is modelled over the
reals with `Real.sin`.
-/

/-- The six user-adjustable slider parameters (src/app.py, sidebar sliders). -/
structure Params where
  membrane : ℚ
  entropy : ℚ
  structural : ℚ
  charge : ℚ
  selectivity : ℚ
  stability : ℚ
  deriving DecidableEq

/-- The declared slider ranges: membrane, structural, stability in [0,5];
entropy, selectivity in [0,1]; charge in [-2,2]. -/
abbrev Params.inRange (p : Params) : Prop :=
  0 ≤ p.membrane ∧ p.membrane ≤ 5 ∧
  0 ≤ p.entropy ∧ p.entropy ≤ 1 ∧
  0 ≤ p.structural ∧ p.structural ≤ 5 ∧
  -2 ≤ p.charge ∧ p.charge ≤ 2 ∧
  0 ≤ p.selectivity ∧ p.selectivity ≤ 1 ∧
  0 ≤ p.stability ∧ p.stability ≤ 5

/-- A disease profile record: color, frequency, amplitude, chaos, phase
(src/app.py `disease_profiles` values). -/
structure DiseaseProfile where
  color : String
  frequency : ℚ
  amplitude : ℚ
  chaos : ℚ
  phase : ℝ

def cancerProfile : DiseaseProfile :=
  { color := "#ff3366", frequency := 1.2, amplitude := 0.8, chaos := 0.9, phase := 0 }

noncomputable def alzheimersProfile : DiseaseProfile :=
  { color := "#aa66ff", frequency := 0.8, amplitude := 0.6, chaos := 0.7, phase := Real.pi / 4 }

noncomputable def inflammationProfile : DiseaseProfile :=
  { color := "#ff9900", frequency := 1.0, amplitude := 0.9, chaos := 0.6, phase := Real.pi / 2 }

noncomputable def diabetesProfile : DiseaseProfile :=
  { color := "#3388ff", frequency := 0.6, amplitude := 0.7, chaos := 0.5, phase := Real.pi / 3 }

noncomputable def autoimmuneProfile : DiseaseProfile :=
  { color := "#ff4488", frequency := 1.4, amplitude := 0.85, chaos := 0.8, phase := Real.pi / 6 }

/-- The disease profile table (src/app.py `self.disease_profiles`). -/
noncomputable def disease_profiles : List (String × DiseaseProfile) :=
  [("Cancer (Entropy Pattern)", cancerProfile),
   ("Alzheimer's (Protein Misfolding)", alzheimersProfile),
   ("Chronic Inflammation", inflammationProfile),
   ("Type 2 Diabetes", diabetesProfile),
   ("Autoimmune Disorders", autoimmuneProfile)]

/-- Python's `round` on an exact rational: round to nearest, ties to even. -/
def pyRound (q : ℚ) : ℤ :=
  if q - ⌊q⌋ < 1 / 2 then ⌊q⌋
  else if 1 / 2 < q - ⌊q⌋ then ⌊q⌋ + 1
  else if ⌊q⌋ % 2 = 0 then ⌊q⌋ else ⌊q⌋ + 1

/-- The score record returned by `calculate_scores` (src/app.py:206-213).
`phase_lock` is an integer because Python's `round` returns `int`. -/
structure Scores where
  stability : ℚ
  coupling : ℚ
  entropy_align : ℚ
  selectivity : ℚ
  coherence : ℚ
  phase_lock : ℤ
  deriving DecidableEq

/-- `SBCLGenesis.calculate_scores` (src/app.py:187-213), translated literally. -/
def calculate_scores (params : Params) (disease_profile : DiseaseProfile) : Scores :=
  let stability_score := min 100 (params.stability * 20)
  let coupling_score := min 100 (params.entropy * 100 * disease_profile.chaos)
  let entropy_align_score := min 100 (params.entropy * 80 + 20)
  let selectivity_score := min 100 (params.selectivity * 100)
  let coherence_score := min 100 (60 + params.selectivity * 30 + params.stability * 8)
  let membrane_score := min 100 (max 0 (100 - |params.membrane - 2.5| * 20))
  let charge_score := min 100 (max 0 (100 - |params.charge + 1.0| * 25))
  let structural_score := min 100 (max 0 (100 - |params.structural - 3.0| * 15))
  let phase_lock := pyRound
    (membrane_score * 0.15 + coupling_score * 0.25 + structural_score * 0.15 +
     charge_score * 0.15 + selectivity_score * 0.20 + stability_score * 0.10)
  { stability := stability_score
  , coupling := coupling_score
  , entropy_align := entropy_align_score
  , selectivity := selectivity_score
  , coherence := coherence_score
  , phase_lock := phase_lock }

/-- The weighted-sum total used by the complexity classifier (src/app.py:217-220). -/
def total_complexity (params : Params) : ℚ :=
  params.membrane + params.entropy * 5 + params.structural +
  |params.charge| + params.selectivity * 3 + params.stability

/-- `SBCLGenesis.get_molecular_complexity` (src/app.py:215-225), translated literally. -/
def get_molecular_complexity (params : Params) : String :=
  if total_complexity params < 6 then "simple"
  else if total_complexity params < 10 then "medium"
  else if total_complexity params < 14 then "complex"
  else "advanced"

/-- The bucketing step of the classifier, stated on a bare total; used to
compare the classifier with the spec's description of it as a partition of
the non-negative totals. -/
def classifyTotal (t : ℚ) : String :=
  if t < 6 then "simple"
  else if t < 10 then "medium"
  else if t < 14 then "complex"
  else "advanced"

/-- The example parameter assignment used in the spec's worked examples
(membrane 2.5, entropy 0.5, structural 3.0, charge -1.0,
selectivity 0.74, stability 3.2). -/
def exampleParams : Params :=
  { membrane := 2.5, entropy := 0.5, structural := 3.0
  , charge := -1.0, selectivity := 0.74, stability := 3.2 }

/-! ### Helper lemmas about clipping and Python rounding -/

lemma min100_le (z : ℚ) : min 100 z ≤ 100 := min_le_left _ _

lemma min100_nonneg {z : ℚ} (h : 0 ≤ z) : 0 ≤ min 100 z := le_min (by norm_num) h

lemma clip01_100 (z : ℚ) : 0 ≤ min 100 (max 0 z) ∧ min 100 (max 0 z) ≤ 100 :=
  ⟨le_min (by norm_num) (le_max_left _ _), min_le_left _ _⟩

lemma pyRound_cases (q : ℚ) :
    pyRound q = ⌊q⌋ ∨ (pyRound q = ⌊q⌋ + 1 ∧ 1 / 2 ≤ q - ⌊q⌋) := by
  unfold pyRound
  split_ifs with ha hb hc
  · exact Or.inl rfl
  · exact Or.inr ⟨rfl, le_of_lt hb⟩
  · exact Or.inl rfl
  · exact Or.inr ⟨rfl, not_lt.mp ha⟩

lemma pyRound_bounds {q : ℚ} (h0 : 0 ≤ q) (h1 : q ≤ 100) :
    0 ≤ pyRound q ∧ pyRound q ≤ 100 := by
  have hf0 : (0 : ℤ) ≤ ⌊q⌋ := Int.floor_nonneg.mpr h0
  have hfq : (⌊q⌋ : ℚ) ≤ q := Int.floor_le q
  have hf100 : ⌊q⌋ ≤ 100 := by exact_mod_cast hfq.trans h1
  rcases pyRound_cases q with h | ⟨h, hhalf⟩
  · rw [h]; exact ⟨hf0, hf100⟩
  · rw [h]
    have hlt : (⌊q⌋ : ℚ) < 100 := by linarith
    have h99 : ⌊q⌋ < 100 := by exact_mod_cast hlt
    omega

/-! ### Characterization of the classifier buckets -/

lemma classifyTotal_eq_simple_iff (t : ℚ) : classifyTotal t = "simple" ↔ t < 6 := by
  unfold classifyTotal
  split_ifs with h1 h2 h3
  · exact iff_of_true rfl h1
  · exact iff_of_false (by decide) h1
  · exact iff_of_false (by decide) h1
  · exact iff_of_false (by decide) h1

lemma classifyTotal_eq_medium_iff (t : ℚ) : classifyTotal t = "medium" ↔ 6 ≤ t ∧ t < 10 := by
  unfold classifyTotal
  split_ifs with h1 h2 h3
  · exact iff_of_false (by decide) (by intro h; linarith [h.1])
  · exact iff_of_true rfl ⟨not_lt.mp h1, h2⟩
  · exact iff_of_false (by decide) (by intro h; exact h2 h.2)
  · exact iff_of_false (by decide) (by intro h; exact h2 h.2)

lemma classifyTotal_eq_complex_iff (t : ℚ) : classifyTotal t = "complex" ↔ 10 ≤ t ∧ t < 14 := by
  unfold classifyTotal
  split_ifs with h1 h2 h3
  · exact iff_of_false (by decide) (by intro h; linarith [h.1])
  · exact iff_of_false (by decide) (by intro h; linarith [h.1])
  · exact iff_of_true rfl ⟨not_lt.mp h2, h3⟩
  · exact iff_of_false (by decide) (by intro h; exact h3 h.2)

lemma classifyTotal_eq_advanced_iff (t : ℚ) : classifyTotal t = "advanced" ↔ 14 ≤ t := by
  unfold classifyTotal
  split_ifs with h1 h2 h3
  · exact iff_of_false (by decide) (by intro h; linarith)
  · exact iff_of_false (by decide) (by intro h; linarith)
  · exact iff_of_false (by decide) (by intro h; linarith)
  · exact iff_of_true rfl (not_lt.mp h3)

/-- Claim C2: the complexity classifier computes
`total = membrane + entropy*5 + structural + |charge| + selectivity*3 + stability`
and returns "simple" when total < 6, "medium" when 6 <= total < 10, "complex"
when 10 <= total < 14 and "advanced" when total >= 14; it is total and
deterministic over the non-negative totals, partitioning them into exactly
4 contiguous intervals with boundaries at 6, 10, 14. -/
theorem claim_C2_classifier (p : Params) (t : ℚ) (ht : 0 ≤ t) :
    total_complexity p =
      p.membrane + p.entropy * 5 + p.structural + |p.charge| +
        p.selectivity * 3 + p.stability ∧
    get_molecular_complexity p = classifyTotal (total_complexity p) ∧
    (classifyTotal t = "simple" ↔ t < 6) ∧
    (classifyTotal t = "medium" ↔ 6 ≤ t ∧ t < 10) ∧
    (classifyTotal t = "complex" ↔ 10 ≤ t ∧ t < 14) ∧
    (classifyTotal t = "advanced" ↔ 14 ≤ t) :=
  ⟨rfl, rfl, classifyTotal_eq_simple_iff t, classifyTotal_eq_medium_iff t,
   classifyTotal_eq_complex_iff t, classifyTotal_eq_advanced_iff t⟩

/-- Witness for C2 at total t = 7 and the spec's example parameters. -/
theorem claim_C2_classifier_witness :
    (0 : ℚ) ≤ 7 ∧ (classifyTotal 7 = "medium" ↔ 6 ≤ (7 : ℚ) ∧ (7 : ℚ) < 10) :=
  ⟨by norm_num, (claim_C2_classifier exampleParams 7 (by norm_num)).2.2.2.1⟩

/-- Claim C4: the selectivity score is monotone in the selectivity parameter,
all other parameters and the disease profile held fixed. -/
theorem claim_C4_selectivity_monotone (p q : Params) (pr : DiseaseProfile)
    (h1 : p.membrane = q.membrane) (h2 : p.entropy = q.entropy)
    (h3 : p.structural = q.structural) (h4 : p.charge = q.charge)
    (h5 : p.stability = q.stability) (hp : p.inRange) (hq : q.inRange)
    (hsel : p.selectivity ≤ q.selectivity) :
    (calculate_scores p pr).selectivity ≤ (calculate_scores q pr).selectivity := by
  show min 100 (p.selectivity * 100) ≤ min 100 (q.selectivity * 100)
  exact min_le_min le_rfl (mul_le_mul_of_nonneg_right hsel (by norm_num))

/-- Witness for C4: raising selectivity from 0.74 to 0.9 does not lower the score. -/
theorem claim_C4_selectivity_monotone_witness :
    Params.inRange exampleParams ∧
    Params.inRange { exampleParams with selectivity := 0.9 } ∧
    exampleParams.selectivity ≤ ({ exampleParams with selectivity := 0.9 } : Params).selectivity ∧
    (calculate_scores exampleParams cancerProfile).selectivity ≤
      (calculate_scores { exampleParams with selectivity := 0.9 } cancerProfile).selectivity :=
  ⟨by norm_num [Params.inRange, exampleParams], by norm_num [Params.inRange, exampleParams],
   by norm_num [exampleParams],
   claim_C4_selectivity_monotone exampleParams { exampleParams with selectivity := 0.9 }
     cancerProfile rfl rfl rfl rfl rfl (by norm_num [Params.inRange, exampleParams])
     (by norm_num [Params.inRange, exampleParams]) (by norm_num [exampleParams])⟩

/-- Claim C5: at the spec's example parameters (entropy 0.5) and the profile
with chaos 0.9, the coupling score is min(100, 0.5*100*0.9) = 45. -/
theorem claim_C5_coupling_example :
    cancerProfile.chaos = 0.9 ∧
    (calculate_scores exampleParams cancerProfile).coupling =
      min 100 ((0.5 : ℚ) * 100 * 0.9) ∧
    (calculate_scores exampleParams cancerProfile).coupling = 45 := by
  refine ⟨by norm_num [cancerProfile],
    by norm_num [calculate_scores, exampleParams, cancerProfile],
    by norm_num [calculate_scores, exampleParams, cancerProfile]⟩

/-- Counterexample to claim C6 as stated: at the example parameters the
classifier's total is not 14.92. -/
theorem claim_C6_counterexample :
    ¬(total_complexity exampleParams = 14.92 ∧
      get_molecular_complexity exampleParams = "advanced") := by
  intro h
  exact absurd h.1 (by norm_num [total_complexity, exampleParams])

/-- Claim C6 as amended: the total 2.5 + 0.5*5 + 3.0 + 1.0 + 0.74*3 + 3.2
equals 14.42 (not 14.92), and the classifier still returns "advanced". -/
theorem claim_C6_amended_total :
    total_complexity exampleParams = 2.5 + 0.5 * 5 + 3.0 + 1.0 + 0.74 * 3 + 3.2 ∧
    total_complexity exampleParams = 14.42 ∧
    get_molecular_complexity exampleParams = "advanced" := by
  refine ⟨by norm_num [total_complexity, exampleParams],
    by norm_num [total_complexity, exampleParams],
    by norm_num [get_molecular_complexity, total_complexity, exampleParams]⟩

/-- Claim C9: for in-range parameters the coherence score is at least 60 and
the entropy-align score is at least 20. -/
theorem claim_C9_score_floors (p : Params) (pr : DiseaseProfile) (hp : p.inRange) :
    60 ≤ (calculate_scores p pr).coherence ∧ 20 ≤ (calculate_scores p pr).entropy_align := by
  obtain ⟨hm0, hm5, he0, he1, hst0, hst5, hc2, hc2', hsl0, hsl1, hsb0, hsb5⟩ := hp
  constructor
  · show (60 : ℚ) ≤ min 100 (60 + p.selectivity * 30 + p.stability * 8)
    exact le_min (by norm_num) (by nlinarith)
  · show (20 : ℚ) ≤ min 100 (p.entropy * 80 + 20)
    exact le_min (by norm_num) (by nlinarith)

/-- Witness for C9 at the example parameters and the cancer profile. -/
theorem claim_C9_score_floors_witness :
    Params.inRange exampleParams ∧
    (60 ≤ (calculate_scores exampleParams cancerProfile).coherence ∧
     20 ≤ (calculate_scores exampleParams cancerProfile).entropy_align) :=
  ⟨by norm_num [Params.inRange, exampleParams],
   claim_C9_score_floors exampleParams cancerProfile (by norm_num [Params.inRange, exampleParams])⟩

/-- Claim C10: negating the charge leaves the complexity bucket unchanged,
because the classifier uses the charge only through its absolute value. -/
theorem claim_C10_charge_sign_symmetric (p : Params) (hp : p.inRange) :
    get_molecular_complexity { p with charge := -p.charge } =
      get_molecular_complexity p := by
  have h : total_complexity { p with charge := -p.charge } = total_complexity p := by
    simp [total_complexity, abs_neg]
  simp [get_molecular_complexity, h]

/-- Witness for C10 at the example parameters (charge -1.0). -/
theorem claim_C10_charge_sign_symmetric_witness :
    Params.inRange exampleParams ∧
    get_molecular_complexity { exampleParams with charge := -exampleParams.charge } =
      get_molecular_complexity exampleParams :=
  ⟨by norm_num [Params.inRange, exampleParams],
   claim_C10_charge_sign_symmetric exampleParams (by norm_num [Params.inRange, exampleParams])⟩

/-- Claim C1: for in-range parameters and any profile from the profile table,
every value returned by calculate_scores lies in [0, 100]. -/
theorem claim_C1_scores_in_range (p : Params) (pr : DiseaseProfile)
    (hp : p.inRange) (hpr : pr ∈ disease_profiles.map Prod.snd) :
    (0 ≤ (calculate_scores p pr).stability ∧ (calculate_scores p pr).stability ≤ 100) ∧
    (0 ≤ (calculate_scores p pr).coupling ∧ (calculate_scores p pr).coupling ≤ 100) ∧
    (0 ≤ (calculate_scores p pr).entropy_align ∧ (calculate_scores p pr).entropy_align ≤ 100) ∧
    (0 ≤ (calculate_scores p pr).selectivity ∧ (calculate_scores p pr).selectivity ≤ 100) ∧
    (0 ≤ (calculate_scores p pr).coherence ∧ (calculate_scores p pr).coherence ≤ 100) ∧
    (0 ≤ (calculate_scores p pr).phase_lock ∧ (calculate_scores p pr).phase_lock ≤ 100) := by
  have hchaos : 0 ≤ pr.chaos ∧ pr.chaos ≤ 1 := by
    simp only [disease_profiles, List.map_cons, List.map_nil, List.mem_cons,
      List.not_mem_nil, or_false] at hpr
    rcases hpr with rfl | rfl | rfl | rfl | rfl <;>
      constructor <;>
      norm_num [cancerProfile, alzheimersProfile, inflammationProfile,
        diabetesProfile, autoimmuneProfile]
  obtain ⟨hch0, hch1⟩ := hchaos
  obtain ⟨hm0, hm5, he0, he1, hst0, hst5, hc2, hc2', hsl0, hsl1, hsb0, hsb5⟩ := hp
  have hstab : (calculate_scores p pr).stability = min 100 (p.stability * 20) := rfl
  have hcoup : (calculate_scores p pr).coupling = min 100 (p.entropy * 100 * pr.chaos) := rfl
  have halign : (calculate_scores p pr).entropy_align = min 100 (p.entropy * 80 + 20) := rfl
  have hsel : (calculate_scores p pr).selectivity = min 100 (p.selectivity * 100) := rfl
  have hcoh : (calculate_scores p pr).coherence =
      min 100 (60 + p.selectivity * 30 + p.stability * 8) := rfl
  have hpl : (calculate_scores p pr).phase_lock = pyRound
      (min 100 (max 0 (100 - |p.membrane - 2.5| * 20)) * 0.15 +
       min 100 (p.entropy * 100 * pr.chaos) * 0.25 +
       min 100 (max 0 (100 - |p.structural - 3.0| * 15)) * 0.15 +
       min 100 (max 0 (100 - |p.charge + 1.0| * 25)) * 0.15 +
       min 100 (p.selectivity * 100) * 0.20 +
       min 100 (p.stability * 20) * 0.10) := rfl
  have hcoup0 : (0 : ℚ) ≤ p.entropy * 100 * pr.chaos :=
    mul_nonneg (mul_nonneg he0 (by norm_num)) hch0
  refine ⟨⟨?_, ?_⟩, ⟨?_, ?_⟩, ⟨?_, ?_⟩, ⟨?_, ?_⟩, ⟨?_, ?_⟩, ?_⟩
  · rw [hstab]; exact min100_nonneg (by nlinarith)
  · rw [hstab]; exact min100_le _
  · rw [hcoup]; exact min100_nonneg hcoup0
  · rw [hcoup]; exact min100_le _
  · rw [halign]; exact min100_nonneg (by nlinarith)
  · rw [halign]; exact min100_le _
  · rw [hsel]; exact min100_nonneg (by nlinarith)
  · rw [hsel]; exact min100_le _
  · rw [hcoh]; exact min100_nonneg (by nlinarith)
  · rw [hcoh]; exact min100_le _
  · rw [hpl]
    have b1 := clip01_100 (100 - |p.membrane - 2.5| * 20)
    have b2 := clip01_100 (100 - |p.structural - 3.0| * 15)
    have b3 := clip01_100 (100 - |p.charge + 1.0| * 25)
    have b4 : 0 ≤ min 100 (p.entropy * 100 * pr.chaos) := min100_nonneg hcoup0
    have b4' := min100_le (p.entropy * 100 * pr.chaos)
    have b5 : 0 ≤ min 100 (p.selectivity * 100) := min100_nonneg (by nlinarith)
    have b5' := min100_le (p.selectivity * 100)
    have b6 : 0 ≤ min 100 (p.stability * 20) := min100_nonneg (by nlinarith)
    have b6' := min100_le (p.stability * 20)
    apply pyRound_bounds
    · linarith [b1.1, b2.1, b3.1]
    · linarith [b1.2, b2.2, b3.2]

/-- Witness for C1 at the example parameters and the cancer profile. -/
theorem claim_C1_scores_in_range_witness :
    Params.inRange exampleParams ∧
    cancerProfile ∈ disease_profiles.map Prod.snd ∧
    (0 ≤ (calculate_scores exampleParams cancerProfile).phase_lock ∧
     (calculate_scores exampleParams cancerProfile).phase_lock ≤ 100) :=
  ⟨by norm_num [Params.inRange, exampleParams],
   by simp [disease_profiles],
   (claim_C1_scores_in_range exampleParams cancerProfile
     (by norm_num [Params.inRange, exampleParams])
     (by simp [disease_profiles])).2.2.2.2.2⟩

/-! ### Wave generator (src/app.py:128-185), modelled over the reals -/

/-- The sampling grid `np.linspace(0, 10, 1000)`: 1000 points from 0 to 10. -/
noncomputable def linspace_x : List ℝ :=
  (List.range 1000).map (fun (j : ℕ) => 10 * (j : ℝ) / 999)

/-- The fixed layer color cycle (src/app.py:146). -/
def wave_colors : List String :=
  ["#00ffcc", "#ff66ff", "#66ccff", "#ccff66", "#ff9966", "#9966ff"]

/-- Layer amplitude: `(12 + i*3) * (0.4 + entropy*amplitude + (|charge|/2)*0.3)`. -/
noncomputable def layer_amp (p : Params) (pr : DiseaseProfile) (i : ℕ) : ℝ :=
  (12 + (i : ℝ) * 3) * (0.4 + (p.entropy : ℝ) * (pr.amplitude : ℝ) +
    ((|p.charge| : ℚ) : ℝ) / 2 * 0.3)

/-- Layer frequency:
`(0.6 + i*0.2) * frequency * (0.6 + (membrane/5)*0.5 + selectivity*0.4)`. -/
noncomputable def layer_freq (p : Params) (pr : DiseaseProfile) (i : ℕ) : ℝ :=
  (0.6 + (i : ℝ) * 0.2) * (pr.frequency : ℝ) *
    (0.6 + (p.membrane : ℝ) / 5 * 0.5 + (p.selectivity : ℝ) * 0.4)

/-- Layer phase: `i*π/6 + (stability/5)*(π/4) + profile.phase`. -/
noncomputable def layer_phase (p : Params) (pr : DiseaseProfile) (i : ℕ) : ℝ :=
  (i : ℝ) * Real.pi / 6 + (p.stability : ℝ) / 5 * (Real.pi / 4) + pr.phase

/-- One sample of layer i before the vertical offset: the primary therapeutic
sinusoid, plus the chaos component, plus the therapeutic response
(src/app.py:153-166). -/
noncomputable def wave_value (p : Params) (pr : DiseaseProfile) (t : ℝ) (i : ℕ) (xv : ℝ) : ℝ :=
  layer_amp p pr i * Real.sin (layer_freq p pr i * xv + t + layer_phase p pr i) +
  (layer_amp p pr i * 0.2 * (pr.chaos : ℝ)) *
    Real.sin (layer_freq p pr i * 3.7 * xv + t * 2.1 + layer_phase p pr i + Real.pi / 7) +
  (layer_amp p pr i * 0.25 * (p.selectivity : ℝ)) *
    Real.sin (layer_freq p pr i * xv + t * 0.8 + layer_phase p pr i + Real.pi)

/-- One sample of the disease-signature overlay before the vertical offset
(src/app.py:171-175). -/
noncomputable def signature_value (p : Params) (pr : DiseaseProfile) (t : ℝ) (i : ℕ) (xv : ℝ) : ℝ :=
  layer_amp p pr i * 0.7 *
    Real.sin (layer_freq p pr i * 1.3 * xv + t * 1.2 + layer_phase p pr i) +
  layer_amp p pr i * 0.3 * (pr.chaos : ℝ) *
    Real.sin (layer_freq p pr i * 2.7 * xv + t * 1.8 + layer_phase p pr i + Real.pi / 3)

/-- One wave layer as appended to the output list (src/app.py:177-183). -/
structure WaveLayer where
  x : List ℝ
  y : List ℝ
  color : String
  opacity : ℝ
  disease_signature : Option (List ℝ)

/-- The y samples of layer i: the raw wave offset vertically by `i * 0.8`. -/
noncomputable def layer_y (p : Params) (pr : DiseaseProfile) (t : ℝ) (i : ℕ) : List ℝ :=
  linspace_x.map (fun xv => wave_value p pr t i xv + (i : ℝ) * 0.8)

/-- The disease-signature samples of layer i, offset vertically by `i * 0.8`. -/
noncomputable def layer_signature (p : Params) (pr : DiseaseProfile) (t : ℝ) (i : ℕ) : List ℝ :=
  linspace_x.map (fun xv => signature_value p pr t i xv + (i : ℝ) * 0.8)

/-- Layer i of the wave output (one iteration of the loop at src/app.py:148-183). -/
noncomputable def wave_layer (p : Params) (pr : DiseaseProfile) (t : ℝ) (i : ℕ) : WaveLayer :=
  { x := linspace_x
  , y := layer_y p pr t i
  , color := wave_colors.getD (i % wave_colors.length) ""
  , opacity := min (0.4 + (p.entropy : ℝ) * 0.3 + (p.selectivity : ℝ) * 0.2) 0.9
  , disease_signature :=
      if i ∈ ([1, 3] : List ℕ) then some (layer_signature p pr t i) else none }

/-- `SBCLGenesis.generate_wave_data` (src/app.py:128-185): returns the x grid
and the six wave layers. -/
noncomputable def generate_wave_data (p : Params) (pr : DiseaseProfile) (t : ℝ) :
    List ℝ × List WaveLayer :=
  (linspace_x, (List.range 6).map (wave_layer p pr t))

/-- Claim C3: the wave generator is deterministic: two calls with identical
arguments produce identical output (x grid, and every layer's x, y, color,
opacity and disease-signature data). -/
theorem claim_C3_wave_deterministic (p₁ p₂ : Params) (pr₁ pr₂ : DiseaseProfile)
    (t₁ t₂ : ℝ) (hp : p₁ = p₂) (hpr : pr₁ = pr₂) (ht : t₁ = t₂) :
    generate_wave_data p₁ pr₁ t₁ = generate_wave_data p₂ pr₂ t₂ := by
  rw [hp, hpr, ht]

/-- Witness for C3 at the example parameters, the cancer profile and t = 0. -/
theorem claim_C3_wave_deterministic_witness :
    generate_wave_data exampleParams cancerProfile 0 =
      generate_wave_data exampleParams cancerProfile 0 :=
  claim_C3_wave_deterministic exampleParams exampleParams cancerProfile cancerProfile
    0 0 rfl rfl rfl

/-- Claim C8: for every (params, profile, t) the wave generator returns
exactly 6 layers, each sampled on the fixed grid of 1000 points from 0 to 10;
layer i's y values are the raw wave samples offset vertically by i * 0.8; and
a disease-signature curve is present exactly for layers 1 and 3. -/
theorem claim_C8_wave_structure (p : Params) (pr : DiseaseProfile) (t : ℝ) :
    (generate_wave_data p pr t).2.length = 6 ∧
    (generate_wave_data p pr t).1 = linspace_x ∧
    linspace_x.length = 1000 ∧
    linspace_x[0]? = some 0 ∧
    linspace_x[999]? = some 10 ∧
    (∀ w ∈ (generate_wave_data p pr t).2, w.x = linspace_x) ∧
    (generate_wave_data p pr t).2.map (fun w => w.y) = (List.range 6).map (layer_y p pr t) ∧
    (generate_wave_data p pr t).2.map (fun w => w.disease_signature.isSome) =
      [false, true, false, true, false, false] := by
  refine ⟨?_, ?_, ?_, ?_, ?_, ?_, ?_, ?_⟩
  · simp only [generate_wave_data, List.length_map, List.length_range]
  · simp only [generate_wave_data]
  · show ((List.range 1000).map (fun (j : ℕ) => 10 * (j : ℝ) / 999)).length = 1000
    rw [List.length_map, List.length_range]
  · show (((List.range 1000).map (fun (j : ℕ) => 10 * (j : ℝ) / 999))[0]? : Option ℝ) = some 0
    rw [List.getElem?_map, List.getElem?_range (by norm_num)]
    norm_num
  · show (((List.range 1000).map (fun (j : ℕ) => 10 * (j : ℝ) / 999))[999]? : Option ℝ) = some 10
    rw [List.getElem?_map, List.getElem?_range (by norm_num)]
    norm_num
  · intro w hw
    simp only [generate_wave_data, List.mem_map] at hw
    obtain ⟨i, _, rfl⟩ := hw
    simp only [wave_layer]
  · simp only [generate_wave_data, List.map_map]
    have h : ((fun w => w.y) ∘ wave_layer p pr t) = layer_y p pr t := by
      funext i
      simp [Function.comp, wave_layer]
    rw [h]
  · simp only [generate_wave_data, List.map_map, List.range_succ, List.range_zero,
      List.map_append, List.map_cons, List.map_nil, Function.comp]
    simp [wave_layer]

/-! ### Molecular structures, Lipinski violations and the CSV export -/

/-- A static molecular candidate record (src/app.py `self.molecular_structures`). -/
structure MolecularStructure where
  id : String
  mw : ℚ
  logP : ℚ
  hbd : ℕ
  hba : ℕ
  deriving DecidableEq

def simpleMolecule : MolecularStructure :=
  { id := "SBCL-2024-S1A2", mw := 156.2, logP := 1.2, hbd := 1, hba := 2 }

def mediumMolecule : MolecularStructure :=
  { id := "SBCL-2024-A7X3", mw := 342.7, logP := 2.4, hbd := 3, hba := 5 }

def complexMolecule : MolecularStructure :=
  { id := "SBCL-2024-Z9Q7", mw := 487.3, logP := 3.1, hbd := 4, hba := 7 }

def advancedMolecule : MolecularStructure :=
  { id := "SBCL-2024-Ω4Ψ6", mw := 623.8, logP := 4.2, hbd := 2, hba := 4 }

/-- The molecule table keyed by complexity bucket (src/app.py:121-126). -/
def molecular_structures : List (String × MolecularStructure) :=
  [("simple", simpleMolecule), ("medium", mediumMolecule),
   ("complex", complexMolecule), ("advanced", advancedMolecule)]

/-- The molecule record the app selects for a parameter assignment
(src/app.py:467-468: `mol_data = app.molecular_structures[complexity]`). -/
def molecule_for (p : Params) : Option MolecularStructure :=
  molecular_structures.lookup (get_molecular_complexity p)

/-- The Lipinski violation count (src/app.py:484-488): one violation each for
MW > 500, logP > 5, HBD > 5 and HBA > 10. -/
def lipinski_violations (m : MolecularStructure) : ℕ :=
  (if m.mw > 500 then 1 else 0) + (if m.logP > 5 then 1 else 0) +
  (if m.hbd > 5 then 1 else 0) + (if m.hba > 10 then 1 else 0)

/-- One cell of the exported CSV row. -/
inductive CsvValue where
  | str : String → CsvValue
  | int : ℤ → CsvValue
  | rat : ℚ → CsvValue
  | boolean : Bool → CsvValue
  deriving DecidableEq

/-- The single CSV row built by the export button (src/app.py:548-561), as the
ordered association list of column name and cell value; `drug_like` is the
boolean `violations == 0`. -/
def csv_export_row (params : Params) (disease : String) (scores : Scores)
    (mol_data : MolecularStructure) : List (String × CsvValue) :=
  [("molecule_id", CsvValue.str mol_data.id),
   ("disease", CsvValue.str disease),
   ("phase_lock", CsvValue.int scores.phase_lock),
   ("membrane", CsvValue.rat params.membrane),
   ("entropy", CsvValue.rat params.entropy),
   ("structural", CsvValue.rat params.structural),
   ("charge", CsvValue.rat params.charge),
   ("selectivity", CsvValue.rat params.selectivity),
   ("stability", CsvValue.rat params.stability),
   ("mw", CsvValue.rat mol_data.mw),
   ("logP", CsvValue.rat mol_data.logP),
   ("drug_like", CsvValue.boolean (lipinski_violations mol_data == 0))]

/-- Claim C7: the CSV export is a single row with the columns in the fixed
order molecule_id, disease, phase_lock, membrane, entropy, structural, charge,
selectivity, stability, mw, logP, drug_like; drug_like is true exactly when
the Lipinski violation count is 0 (so it is true whenever violations == 0);
and at the spec's example inputs the selected molecule is the "advanced" one. -/
theorem claim_C7_csv_export (p : Params) (d : String) (s : Scores)
    (m : MolecularStructure) :
    (csv_export_row p d s m).map Prod.fst =
      ["molecule_id", "disease", "phase_lock", "membrane", "entropy", "structural",
       "charge", "selectivity", "stability", "mw", "logP", "drug_like"] ∧
    (csv_export_row p d s m).lookup "drug_like" =
      some (CsvValue.boolean (lipinski_violations m == 0)) ∧
    (lipinski_violations m = 0 →
      (csv_export_row p d s m).lookup "drug_like" = some (CsvValue.boolean true)) ∧
    molecule_for exampleParams = some advancedMolecule := by
  refine ⟨rfl, rfl, fun h => ?_, ?_⟩
  · rw [show (csv_export_row p d s m).lookup "drug_like" =
        some (CsvValue.boolean (lipinski_violations m == 0)) from rfl, h]
    rfl
  · norm_num [molecule_for, get_molecular_complexity, total_complexity,
      exampleParams, molecular_structures]
    rfl
